import Mathlib

/-!
Verification of the `ts-auth` repository's reference (testing) providers.

The repository exposes two facades:
* `AuthTesting` (file `src/frontend/providers/testing/auth-frontend.testing.ts`),
  the session-bound frontend facade, and
* `AuthBackendTesting` (file `src/backend/providers/testing/auth-backend.testing.ts`),
  the stateless administrative backend facade.

Each TypeScript class is embedded as a Lean state record plus one pure
function per public method.  JavaScript `Map`s are association lists with
`Map` semantics (insertion order, unique keys, `set` replaces in place,
`delete` removes the key).  `Date.now()` becomes an explicit `now : Nat`
argument; `Math.random()` / `uuidv4()` suffixes become explicit `fresh`
string arguments.  Thrown exceptions and typed `Result` errors become
`Except` values paired with the post-state (the pre-state when the method
returns before mutating, exactly as the source does).
-/

/-- JS `\s` characters relevant here (the common ASCII whitespace plus
no-break space and BOM; the remaining rare Unicode space characters of the
JS `\s` class are omitted, no claim depends on them). -/
def isJsWs (c : Char) : Bool :=
  c = ' ' || c = '\t' || c = '\n' || c = '\r' ||
  c = '\x0b' || c = '\x0c' || c = ' ' || c = '﻿'

/-- `rest.dropLast.contains ch` holds iff `ch` occurs at some position of the
original list that is neither the first nor the last. -/
def hasInnerDot : List Char → Bool
  | [] => false
  | _ :: rest => rest.dropLast.contains '.'

/-- Embedding of the email regular expression used by both facades:
`^[^\s@]+@[^\s@]+\.[^\s@]+$`.  A string matches iff it has no whitespace,
exactly one `@`, a nonempty part before the `@`, and after the `@` a dot
that is neither the first nor the last character of the domain part
(the character classes allow further dots on either side of it). -/
def isValidEmail (s : String) : Bool :=
  let cs := s.toList
  cs.all (fun c => !isJsWs c) &&
  match cs.splitOn '@' with
  | [l, d] => !l.isEmpty && hasInnerDot d
  | _ => false

deriving instance DecidableEq for Except

/-! Association-list model of the JS `Map` (insertion-ordered, unique keys). -/

/-- `Map.get`: value at the first (only) occurrence of the key. -/
def mapGet {α : Type} : List (String × α) → String → Option α
  | [], _ => none
  | (k0, v0) :: rest, k => if k0 = k then some v0 else mapGet rest k

/-- `Map.has`. -/
def mapHas {α : Type} (m : List (String × α)) (k : String) : Bool :=
  (mapGet m k).isSome

/-- `Map.set`: replace in place if the key is present, otherwise append. -/
def mapSet {α : Type} : List (String × α) → String → α → List (String × α)
  | [], k, v => [(k, v)]
  | (k0, v0) :: rest, k, v =>
      if k0 = k then (k, v) :: rest else (k0, v0) :: mapSet rest k v

/-- `Map.delete`: remove the key (a JS `Map` holds each key at most once,
so removing every occurrence is the faithful model). -/
def mapDelete {α : Type} (m : List (String × α)) (k : String) : List (String × α) :=
  m.filter (fun p => decide (p.1 ≠ k))

/-! ## Frontend facade: `AuthTesting` -/

/-- `FakeUser` record of the frontend provider. -/
structure FakeUser where
  uid : String
  email : String
  password : String
deriving DecidableEq, Repr

/-- `FakePasswordResetToken` record of the frontend provider. -/
structure FakePasswordResetToken where
  token : String
  email : String
  expiresAt : Nat
deriving DecidableEq, Repr

/-- One value of the `authState` `BehaviorSubject`:
`undefined`, `null`, or `{uid}`. -/
inductive AuthStateVal where
  | undef
  | signedOut
  | signedIn (uid : String)
deriving DecidableEq, Repr

/-- The private mutable fields of class `AuthTesting`.  `authStateLog` is the
sequence of values published on the `authState` subject (most recent last);
its last element is the subject's current value. -/
structure AuthTestingState where
  users : List (String × FakeUser)
  currentUser : Option String
  authStateLog : List AuthStateVal
  passwordResetTokens : List (String × FakePasswordResetToken)
  rateLimitTracker : List (String × Nat)
  idTokens : List (String × String)
deriving DecidableEq, Repr

/-- Constructor: the `BehaviorSubject` starts at `undefined` and the
constructor publishes `undefined` once more. -/
def AuthTesting.initial : AuthTestingState :=
  { users := [], currentUser := none,
    authStateLog := [AuthStateVal.undef, AuthStateVal.undef],
    passwordResetTokens := [], rateLimitTracker := [], idTokens := [] }

/-- Error codes of the sign-in result type (shared by both facades). -/
inductive SignInError where
  | invalidEmail
  | userNotFound
  | wrongPassword
deriving DecidableEq, Repr

/-- The id-token string minted on frontend sign-in:
`fake-id-token-\x7buid\x7d-\x7bDate.now()\x7d`. -/
def mkIdToken (uid : String) (now : Nat) : String :=
  "fake-id-token-" ++ uid ++ "-" ++ toString now

/-- `AuthTesting.signInWithEmailAndPassword`. -/
def AuthTesting.signInWithEmailAndPassword (st : AuthTestingState)
    (email password : String) (now : Nat) :
    Except SignInError Unit × AuthTestingState :=
  if !isValidEmail email then (Except.error SignInError.invalidEmail, st)
  else
    match mapGet st.users email with
    | none => (Except.error SignInError.userNotFound, st)
    | some user =>
      if user.password ≠ password then (Except.error SignInError.wrongPassword, st)
      else
        (Except.ok (),
          { st with
            currentUser := some user.uid
            authStateLog := st.authStateLog ++ [AuthStateVal.signedIn user.uid]
            idTokens := mapSet st.idTokens user.uid (mkIdToken user.uid now) })

/-- The two `throw` sites of `AuthTesting.getIdToken`. -/
inductive GetIdTokenError where
  | noUserSignedIn
  | noTokenAvailable
deriving DecidableEq, Repr

/-- `AuthTesting.getIdToken` (read-only). -/
def AuthTesting.getIdToken (st : AuthTestingState) : Except GetIdTokenError String :=
  match st.currentUser with
  | none => Except.error GetIdTokenError.noUserSignedIn
  | some uid =>
    match mapGet st.idTokens uid with
    | none => Except.error GetIdTokenError.noTokenAvailable
    | some t => Except.ok t

/-- `AuthTesting.signOut`. -/
def AuthTesting.signOut (st : AuthTestingState) : AuthTestingState :=
  let idTokens' :=
    match st.currentUser with
    | some uid => mapDelete st.idTokens uid
    | none => st.idTokens
  { st with
    idTokens := idTokens'
    currentUser := none
    authStateLog := st.authStateLog ++ [AuthStateVal.signedOut] }

/-- `AuthTesting.isEmailAvailable` (read-only). -/
def AuthTesting.isEmailAvailable (st : AuthTestingState) (email : String) : Bool :=
  !mapHas st.users email

/-- Error outcomes of `AuthTesting.changeEmail` (the first is the
`resultError.unknown` branch). -/
inductive ChangeEmailError where
  | noUserSignedIn
  | emailNotAvailable
deriving DecidableEq, Repr

/-- First entry of the `users` map (in insertion order) whose user has the
given uid — the entry the `for ... break` loops of `changeEmail` and
`deleteAccount` act on. -/
def findEntryByUid : List (String × FakeUser) → String → Option (String × FakeUser)
  | [], _ => none
  | (k0, v0) :: rest, uid => if v0.uid = uid then some (k0, v0) else findEntryByUid rest uid

/-- `AuthTesting.changeEmail`. -/
def AuthTesting.changeEmail (st : AuthTestingState) (email : String) :
    Except ChangeEmailError Unit × AuthTestingState :=
  match st.currentUser with
  | none => (Except.error ChangeEmailError.noUserSignedIn, st)
  | some uid =>
    if !AuthTesting.isEmailAvailable st email then
      (Except.error ChangeEmailError.emailNotAvailable, st)
    else
      match findEntryByUid st.users uid with
      | none => (Except.ok (), st)
      | some (oldEmail, user) =>
        let users' := mapSet (mapDelete st.users oldEmail) email ({ user with email := email })
        (Except.ok (), { st with users := users' })

/-- Error codes of `AuthTesting.triggerResetPasswordFlow`. -/
inductive TriggerResetError where
  | rateLimitExceeded
  | emailNotInDatabase
deriving DecidableEq, Repr

/-- The reset-token string: `fake-reset-token-\x7brandom\x7d`. -/
def mkResetToken (fresh : String) : String :=
  "fake-reset-token-" ++ fresh

/-- `AuthTesting.triggerResetPasswordFlow`.  The JS test
`now - lastRequest < 60000` on numbers agrees with the truncated `Nat`
subtraction used here: when `lastRequest > now` both sides are below
`60000` (negative in JS, `0` in Lean), so both reject. -/
def AuthTesting.triggerResetPasswordFlow (st : AuthTestingState)
    (email : String) (now : Nat) (fresh : String) :
    Except TriggerResetError Unit × AuthTestingState :=
  let lastRequest := (mapGet st.rateLimitTracker email).getD 0
  if now - lastRequest < 60000 then
    (Except.error TriggerResetError.rateLimitExceeded, st)
  else if !mapHas st.users email then
    (Except.error TriggerResetError.emailNotInDatabase, st)
  else
    let token := mkResetToken fresh
    (Except.ok (),
      { st with
        passwordResetTokens := mapSet st.passwordResetTokens token
          ({ token := token, email := email, expiresAt := now + 3600000 })
        rateLimitTracker := mapSet st.rateLimitTracker email now })

/-- Error codes of `AuthTesting.requestChangePassword`. -/
inductive ChangePasswordError where
  | tokenExpired
  | tokenNotFound
deriving DecidableEq, Repr

/-- `AuthTesting.requestChangePassword`. -/
def AuthTesting.requestChangePassword (st : AuthTestingState)
    (passwordToken newPassword : String) (now : Nat) :
    Except ChangePasswordError Unit × AuthTestingState :=
  match mapGet st.passwordResetTokens passwordToken with
  | none => (Except.error ChangePasswordError.tokenNotFound, st)
  | some resetToken =>
    if now > resetToken.expiresAt then
      (Except.error ChangePasswordError.tokenExpired,
        { st with passwordResetTokens := mapDelete st.passwordResetTokens passwordToken })
    else
      let users' :=
        match mapGet st.users resetToken.email with
        | some user => mapSet st.users resetToken.email ({ user with password := newPassword })
        | none => st.users
      (Except.ok (),
        { st with
          users := users'
          passwordResetTokens := mapDelete st.passwordResetTokens passwordToken })

/-- `AuthTesting.deleteAccount`; `none` is the thrown `No user signed in`. -/
def AuthTesting.deleteAccount (st : AuthTestingState) : Option AuthTestingState :=
  match st.currentUser with
  | none => none
  | some uid =>
    let users' :=
      match findEntryByUid st.users uid with
      | some entry => mapDelete st.users entry.1
      | none => st.users
    some { st with
      users := users'
      idTokens := mapDelete st.idTokens uid
      currentUser := none
      authStateLog := st.authStateLog ++ [AuthStateVal.signedOut] }

/-- The uid string minted on frontend sign-up: `fake-user-\x7brandom\x7d`. -/
def mkUid (fresh : String) : String :=
  "fake-user-" ++ fresh

/-- `AuthTesting.signUp`; `Except.error ()` is the thrown
`Email already in use`. -/
def AuthTesting.signUp (st : AuthTestingState) (email password fresh : String) :
    Except Unit String × AuthTestingState :=
  if mapHas st.users email then (Except.error (), st)
  else
    let uid := mkUid fresh
    let users' := mapSet st.users email ({ uid := uid, email := email, password := password })
    (Except.ok uid, { st with users := users' })

/-- `AuthTesting.addTestUser`; the `uid` argument models `uid ||` the random
fallback. -/
def AuthTesting.addTestUser (st : AuthTestingState) (email password uid : String) :
    String × AuthTestingState :=
  let users' := mapSet st.users email ({ uid := uid, email := email, password := password })
  (uid, { st with users := users' })

/-- `AuthTesting.getPasswordResetTokens` (read-only). -/
def AuthTesting.getPasswordResetTokens (st : AuthTestingState) : List String :=
  st.passwordResetTokens.map (fun p => p.1)

/-! ## Backend facade: `AuthBackendTesting` -/

/-- One element of the private `registeredUsers` array. -/
structure RegisteredUser where
  idToken : String
  uid : String
  email : String
  password : String
  refreshToken : String
deriving DecidableEq, Repr

/-- The private state of class `AuthBackendTesting`.  `createdEvents` and
`deletedEvents` are the sequences of uids published on the
`onUserCreated` and `onUserDeleted` subjects (most recent last). -/
structure AuthBackendTestingState where
  registeredUsers : List RegisteredUser
  createdEvents : List String
  deletedEvents : List String
deriving DecidableEq, Repr

/-- Constructor of `AuthBackendTesting`: empty array, no events. -/
def AuthBackendTesting.initial : AuthBackendTestingState :=
  { registeredUsers := [], createdEvents := [], deletedEvents := [] }

/-- `registeredUsers.find((u) => u.uid === uid)`. -/
def findByUid : List RegisteredUser → String → Option RegisteredUser
  | [], _ => none
  | u :: rest, uid => if u.uid = uid then some u else findByUid rest uid

/-- `registeredUsers.find((u) => u.email === email)`. -/
def findByEmail : List RegisteredUser → String → Option RegisteredUser
  | [], _ => none
  | u :: rest, email => if u.email = email then some u else findByEmail rest email

/-- `registeredUsers.find((u) => u.refreshToken === refreshToken)`. -/
def findByRefreshToken : List RegisteredUser → String → Option RegisteredUser
  | [], _ => none
  | u :: rest, t => if u.refreshToken = t then some u else findByRefreshToken rest t

/-- `registeredUsers.find((u) => u.idToken === idToken)`. -/
def findByIdToken : List RegisteredUser → String → Option RegisteredUser
  | [], _ => none
  | u :: rest, t => if u.idToken = t then some u else findByIdToken rest t

/-- Mutate the first user with the given uid in place (JS `find` returns a
reference that the method then mutates). -/
def updateByUid (f : RegisteredUser → RegisteredUser) :
    List RegisteredUser → String → List RegisteredUser
  | [], _ => []
  | u :: rest, uid => if u.uid = uid then f u :: rest else u :: updateByUid f rest uid

/-- Mutate the first user with the given refresh token in place. -/
def updateByRefreshToken (f : RegisteredUser → RegisteredUser) :
    List RegisteredUser → String → List RegisteredUser
  | [], _ => []
  | u :: rest, t => if u.refreshToken = t then f u :: rest else u :: updateByRefreshToken f rest t

/-- `splice(index, 1)` at the index of the first user with the given uid. -/
def removeByUid : List RegisteredUser → String → List RegisteredUser
  | [], _ => []
  | u :: rest, uid => if u.uid = uid then rest else u :: removeByUid rest uid

/-- `AuthBackendTesting.changePassword`; `Except.error ()` is the
`resultError.unknown('User not found')` branch. -/
def AuthBackendTesting.changePassword (st : AuthBackendTestingState)
    (uid newPassword : String) : Except Unit Unit × AuthBackendTestingState :=
  match findByUid st.registeredUsers uid with
  | none => (Except.error (), st)
  | some _ =>
    let users' := updateByUid (fun u => { u with password := newPassword }) st.registeredUsers uid
    (Except.ok (), { st with registeredUsers := users' })

/-- `AuthBackendTesting.getUidFromIdToken` (read-only);
`Except.error ()` is `resultError.unknown('User not found')`. -/
def AuthBackendTesting.getUidFromIdToken (st : AuthBackendTestingState)
    (idToken : String) : Except Unit String :=
  match findByIdToken st.registeredUsers idToken with
  | none => Except.error ()
  | some user => Except.ok user.uid

/-- The success payload of backend sign-in: `\x7buid, refreshToken, idToken\x7d`. -/
structure BackendSignInSuccess where
  uid : String
  refreshToken : String
  idToken : String
deriving DecidableEq, Repr

/-- `AuthBackendTesting.signInWithEmailAndPassword`.  The method never
mutates `registeredUsers` (it returns the stored tokens), so it is embedded
as a read-only function. -/
def AuthBackendTesting.signInWithEmailAndPassword (st : AuthBackendTestingState)
    (email password : String) : Except SignInError BackendSignInSuccess :=
  if !isValidEmail email then Except.error SignInError.invalidEmail
  else
    match findByEmail st.registeredUsers email with
    | none => Except.error SignInError.userNotFound
    | some user =>
      if user.password ≠ password then Except.error SignInError.wrongPassword
      else Except.ok { uid := user.uid, refreshToken := user.refreshToken, idToken := user.idToken }

/-- `AuthBackendTesting.signInWithRefreshToken`; `newIdToken` models the
`uuidv4()` value; `Except.error ()` is
`resultError.unknown('Invalid refresh token')`. -/
def AuthBackendTesting.signInWithRefreshToken (st : AuthBackendTestingState)
    (refreshToken newIdToken : String) :
    Except Unit (String × String) × AuthBackendTestingState :=
  match findByRefreshToken st.registeredUsers refreshToken with
  | none => (Except.error (), st)
  | some user =>
    let users' := updateByRefreshToken (fun u => { u with idToken := newIdToken })
      st.registeredUsers refreshToken
    ((Except.ok (newIdToken, user.uid)), { st with registeredUsers := users' })

/-- `AuthBackendTesting.signUpWithEmailPassword`; the three `uuidv4()`
values are explicit arguments.  The method never fails: it pushes a new
user unconditionally and emits one `onUserCreated` event. -/
def AuthBackendTesting.signUpWithEmailPassword (st : AuthBackendTestingState)
    (email password uid idToken refreshToken : String) :
    String × AuthBackendTestingState :=
  let user : RegisteredUser :=
    { idToken := idToken, uid := uid, email := email,
      password := password, refreshToken := refreshToken }
  (uid, { st with
    registeredUsers := st.registeredUsers ++ [user]
    createdEvents := st.createdEvents ++ [uid] })

/-- `AuthBackendTesting.changeEmail`; no availability check is performed. -/
def AuthBackendTesting.changeEmail (st : AuthBackendTestingState)
    (uid newEmail : String) : Except Unit Unit × AuthBackendTestingState :=
  match findByUid st.registeredUsers uid with
  | none => (Except.error (), st)
  | some _ =>
    let users' := updateByUid (fun u => { u with email := newEmail }) st.registeredUsers uid
    (Except.ok (), { st with registeredUsers := users' })

/-- `AuthBackendTesting.deleteUser`: remove the first user with the uid and
emit one `onUserDeleted` event; `Except.error ()` is
`resultError.unknown('User not found')`. -/
def AuthBackendTesting.deleteUser (st : AuthBackendTestingState)
    (uid : String) : Except Unit Unit × AuthBackendTestingState :=
  match findByUid st.registeredUsers uid with
  | none => (Except.error (), st)
  | some _ =>
    (Except.ok (), { st with
      registeredUsers := removeByUid st.registeredUsers uid
      deletedEvents := st.deletedEvents ++ [uid] })

/-- `AuthBackendTesting.getUidByEmail` (read-only); `Except.error ()` is the
`email-not-found` coded error. -/
def AuthBackendTesting.getUidByEmail (st : AuthBackendTestingState)
    (email : String) : Except Unit String :=
  match findByEmail st.registeredUsers email with
  | none => Except.error ()
  | some user => Except.ok user.uid

/-! ## The two facades side by side

An application holds one `AuthTesting` instance and one
`AuthBackendTesting` instance.  Each class keeps its own private fields;
no reference connects them, so a `World` is simply the pair of states and
every method acts on its own component. -/

/-- The combined state of the two facade instances. -/
structure World where
  front : AuthTestingState
  back : AuthBackendTestingState
deriving DecidableEq, Repr

/-- Both facades freshly constructed. -/
def World.initial : World :=
  { front := AuthTesting.initial, back := AuthBackendTesting.initial }

/-- The session facade's `signUp`, lifted to the combined state. -/
def World.signUp (w : World) (email password fresh : String) :
    Except Unit String × World :=
  ((AuthTesting.signUp w.front email password fresh).1,
   { w with front := (AuthTesting.signUp w.front email password fresh).2 })

/-- The administrative facade's `getUidByEmail`, on the combined state. -/
def World.getUidByEmail (w : World) (email : String) : Except Unit String :=
  AuthBackendTesting.getUidByEmail w.back email

/-- The administrative facade's `deleteUser`, lifted to the combined state. -/
def World.deleteUser (w : World) (uid : String) : Except Unit Unit × World :=
  ((AuthBackendTesting.deleteUser w.back uid).1,
   { w with back := (AuthBackendTesting.deleteUser w.back uid).2 })

/-- The session facade's `isEmailAvailable`, on the combined state. -/
def World.isEmailAvailable (w : World) (email : String) : Bool :=
  AuthTesting.isEmailAvailable w.front email

/-! ## Helper lemmas about the map model -/

theorem mapGet_mapSet_self {α : Type} (m : List (String × α)) (k : String) (v : α) :
    mapGet (mapSet m k v) k = some v := by
  induction m with
  | nil => simp [mapSet, mapGet]
  | cons hd tl ih =>
    obtain ⟨k0, v0⟩ := hd
    by_cases h : k0 = k
    · simp [mapSet, h, mapGet]
    · simp [mapSet, h, mapGet, ih]

theorem mapGet_mapSet_ne {α : Type} (m : List (String × α)) (k k' : String) (v : α)
    (h : k' ≠ k) : mapGet (mapSet m k v) k' = mapGet m k' := by
  have hks : ¬k = k' := Ne.symm h
  induction m with
  | nil => simp [mapSet, mapGet, hks]
  | cons hd tl ih =>
    obtain ⟨k0, v0⟩ := hd
    by_cases h0 : k0 = k
    · subst h0
      simp [mapSet, mapGet, hks]
    · simp only [mapSet, if_neg h0, mapGet]
      by_cases h1 : k0 = k'
      · simp [h1]
      · simp [h1, ih]

theorem mapHas_mapSet_self {α : Type} (m : List (String × α)) (k : String) (v : α) :
    mapHas (mapSet m k v) k = true := by
  simp [mapHas, mapGet_mapSet_self]

theorem mapGet_mapDelete_self {α : Type} (m : List (String × α)) (k : String) :
    mapGet (mapDelete m k) k = none := by
  induction m with
  | nil => simp [mapDelete, mapGet]
  | cons hd tl ih =>
    obtain ⟨k0, v0⟩ := hd
    by_cases h : k0 = k
    · simpa [mapDelete, h] using ih
    · simpa [mapDelete, mapGet, h] using ih

theorem mapGet_mapDelete_ne {α : Type} (m : List (String × α)) (k k' : String)
    (h : k' ≠ k) : mapGet (mapDelete m k) k' = mapGet m k' := by
  have hks : ¬k = k' := Ne.symm h
  induction m with
  | nil => simp [mapDelete, mapGet]
  | cons hd tl ih =>
    obtain ⟨k0, v0⟩ := hd
    by_cases h0 : k0 = k
    · subst h0
      have h2 : mapDelete ((k0, v0) :: tl) k0 = mapDelete tl k0 := by simp [mapDelete]
      rw [h2, ih]
      simp only [mapGet, if_neg hks]
    · have h2 : mapDelete ((k0, v0) :: tl) k = (k0, v0) :: mapDelete tl k := by
        simp [mapDelete, h0]
      rw [h2]
      simp only [mapGet]
      by_cases h1 : k0 = k'
      · simp [h1]
      · simp [h1, ih]

theorem mapHas_mapDelete_self {α : Type} (m : List (String × α)) (k : String) :
    mapHas (mapDelete m k) k = false := by
  simp [mapHas, mapGet_mapDelete_self]

/-! ## Helper lemmas about the backend user array -/

theorem findByEmail_eq_none_iff (l : List RegisteredUser) (e : String) :
    findByEmail l e = none ↔ ∀ v ∈ l, v.email ≠ e := by
  induction l with
  | nil => simp [findByEmail]
  | cons u rest ih =>
    by_cases h : u.email = e
    · simp [findByEmail, h]
    · simp [findByEmail, h, ih]

theorem findByUid_eq_none_iff (l : List RegisteredUser) (uid : String) :
    findByUid l uid = none ↔ ∀ v ∈ l, v.uid ≠ uid := by
  induction l with
  | nil => simp [findByUid]
  | cons u rest ih =>
    by_cases h : u.uid = uid
    · simp [findByUid, h]
    · simp [findByUid, h, ih]

theorem findByEmail_removeByUid_none (l : List RegisteredUser) (uid e : String)
    (hall : ∀ v ∈ l, v.email = e → v.uid = uid)
    (hcount : (l.filter (fun v => v.uid = uid)).length ≤ 1) :
    findByEmail (removeByUid l uid) e = none := by
  induction l with
  | nil => simp [removeByUid, findByEmail]
  | cons u rest ih =>
    by_cases h : u.uid = uid
    · rw [removeByUid, if_pos h]
      rw [findByEmail_eq_none_iff]
      intro v hv hve
      have hvuid : v.uid = uid := hall v (List.mem_cons_of_mem _ hv) hve
      have h1 : 1 ≤ (rest.filter (fun v => v.uid = uid)).length := by
        have : v ∈ rest.filter (fun v => v.uid = uid) := by
          simp [List.mem_filter, hv, hvuid]
        exact List.length_pos.mpr (List.ne_nil_of_mem this)
      have h2 : (List.filter (fun v => decide (v.uid = uid)) (u :: rest)).length
          = (rest.filter (fun v => v.uid = uid)).length + 1 := by
        simp [List.filter, h]
      omega
    · rw [removeByUid, if_neg h]
      have hne : u.email ≠ e := fun he => h (hall u (List.mem_cons_self u rest) he)
      rw [findByEmail, if_neg hne]
      apply ih
      · intro v hv hve
        exact hall v (List.mem_cons_of_mem _ hv) hve
      · have h2 : List.filter (fun v => decide (v.uid = uid)) (u :: rest)
            = rest.filter (fun v => v.uid = uid) := by
          simp [List.filter, h]
        rw [h2] at hcount
        exact hcount

/-! ## Case lemmas for sign-in on both facades -/

theorem AuthTesting.signIn_invalid (st : AuthTestingState) (e p : String) (now : Nat)
    (h : isValidEmail e = false) :
    AuthTesting.signInWithEmailAndPassword st e p now
      = (Except.error SignInError.invalidEmail, st) := by
  simp [AuthTesting.signInWithEmailAndPassword, h]

theorem AuthTesting.signIn_notFound (st : AuthTestingState) (e p : String) (now : Nat)
    (h : isValidEmail e = true) (h2 : mapGet st.users e = none) :
    AuthTesting.signInWithEmailAndPassword st e p now
      = (Except.error SignInError.userNotFound, st) := by
  simp [AuthTesting.signInWithEmailAndPassword, h, h2]

theorem AuthTesting.signIn_wrongPassword (st : AuthTestingState) (e p : String) (now : Nat)
    (u : FakeUser) (h : isValidEmail e = true) (h2 : mapGet st.users e = some u)
    (h3 : u.password ≠ p) :
    AuthTesting.signInWithEmailAndPassword st e p now
      = (Except.error SignInError.wrongPassword, st) := by
  simp [AuthTesting.signInWithEmailAndPassword, h, h2, h3]

theorem AuthTesting.signIn_success (st : AuthTestingState) (e p : String) (now : Nat)
    (u : FakeUser) (h : isValidEmail e = true) (h2 : mapGet st.users e = some u)
    (h3 : u.password = p) :
    AuthTesting.signInWithEmailAndPassword st e p now
      = (Except.ok (),
          { st with
            currentUser := some u.uid
            authStateLog := st.authStateLog ++ [AuthStateVal.signedIn u.uid]
            idTokens := mapSet st.idTokens u.uid (mkIdToken u.uid now) }) := by
  simp [AuthTesting.signInWithEmailAndPassword, h, h2, h3]

theorem AuthBackendTesting.backendSignIn_invalid (st : AuthBackendTestingState) (e p : String)
    (h : isValidEmail e = false) :
    AuthBackendTesting.signInWithEmailAndPassword st e p
      = Except.error SignInError.invalidEmail := by
  simp [AuthBackendTesting.signInWithEmailAndPassword, h]

theorem AuthBackendTesting.backendSignIn_notFound (st : AuthBackendTestingState) (e p : String)
    (h : isValidEmail e = true) (h2 : findByEmail st.registeredUsers e = none) :
    AuthBackendTesting.signInWithEmailAndPassword st e p
      = Except.error SignInError.userNotFound := by
  simp [AuthBackendTesting.signInWithEmailAndPassword, h, h2]

theorem AuthBackendTesting.backendSignIn_wrongPassword (st : AuthBackendTestingState) (e p : String)
    (u : RegisteredUser) (h : isValidEmail e = true)
    (h2 : findByEmail st.registeredUsers e = some u) (h3 : u.password ≠ p) :
    AuthBackendTesting.signInWithEmailAndPassword st e p
      = Except.error SignInError.wrongPassword := by
  simp [AuthBackendTesting.signInWithEmailAndPassword, h, h2, h3]

theorem AuthBackendTesting.backendSignIn_success (st : AuthBackendTestingState) (e p : String)
    (u : RegisteredUser) (h : isValidEmail e = true)
    (h2 : findByEmail st.registeredUsers e = some u) (h3 : u.password = p) :
    AuthBackendTesting.signInWithEmailAndPassword st e p
      = Except.ok { uid := u.uid, refreshToken := u.refreshToken, idToken := u.idToken } := by
  simp [AuthBackendTesting.signInWithEmailAndPassword, h, h2, h3]

/-- A failing frontend sign-in returns the input state unchanged (every early
return of the method happens before any mutation). -/
theorem AuthTesting.signIn_error_preserves (st : AuthTestingState) (e p : String)
    (now : Nat) (err : SignInError)
    (h : (AuthTesting.signInWithEmailAndPassword st e p now).1 = Except.error err) :
    (AuthTesting.signInWithEmailAndPassword st e p now).2 = st := by
  by_cases hv : isValidEmail e = true
  · cases hg : mapGet st.users e with
    | none => simp [AuthTesting.signInWithEmailAndPassword, hv, hg]
    | some u =>
      by_cases hp : u.password = p
      · rw [AuthTesting.signIn_success st e p now u hv hg hp] at h
        simp at h
      · simp [AuthTesting.signInWithEmailAndPassword, hv, hg, hp]
  · rw [Bool.not_eq_true] at hv
    simp [AuthTesting.signInWithEmailAndPassword, hv]

/-! ## Sample states used by the witness theorems -/

/-- A frontend state holding one account `a@x.com` / `pw` with uid `u1`,
nobody signed in. -/
def sampleFront : AuthTestingState :=
  { users := [("a@x.com", { uid := "u1", email := "a@x.com", password := "pw" })]
    currentUser := none
    authStateLog := [AuthStateVal.undef, AuthStateVal.undef]
    passwordResetTokens := []
    rateLimitTracker := []
    idTokens := [] }

/-- A backend state holding one registered user `a@x.com` / `pw` with uid
`u1`, id token `tok1` and refresh token `r1`. -/
def sampleBack : AuthBackendTestingState :=
  { registeredUsers := [{ idToken := "tok1", uid := "u1", email := "a@x.com", password := "pw", refreshToken := "r1" }]
    createdEvents := ["u1"]
    deletedEvents := [] }

/-! ## C8 -/

/-- C8: credential verification checks in a fixed order on both facades:
a syntactically invalid email yields `invalid-email` regardless of the
directory; a well-formed email with no matching account yields
`user-not-found`; a matching account with a non-matching password yields
`wrong-password`. -/
theorem credential_checks_ordered :
    (∀ (st : AuthTestingState) (e p : String) (now : Nat),
      isValidEmail e = false →
      AuthTesting.signInWithEmailAndPassword st e p now
        = (Except.error SignInError.invalidEmail, st)) ∧
    (∀ (st : AuthTestingState) (e p : String) (now : Nat),
      isValidEmail e = true → mapGet st.users e = none →
      AuthTesting.signInWithEmailAndPassword st e p now
        = (Except.error SignInError.userNotFound, st)) ∧
    (∀ (st : AuthTestingState) (e p : String) (now : Nat) (u : FakeUser),
      isValidEmail e = true → mapGet st.users e = some u → u.password ≠ p →
      AuthTesting.signInWithEmailAndPassword st e p now
        = (Except.error SignInError.wrongPassword, st)) ∧
    (∀ (b : AuthBackendTestingState) (e p : String),
      isValidEmail e = false →
      AuthBackendTesting.signInWithEmailAndPassword b e p
        = Except.error SignInError.invalidEmail) ∧
    (∀ (b : AuthBackendTestingState) (e p : String),
      isValidEmail e = true → findByEmail b.registeredUsers e = none →
      AuthBackendTesting.signInWithEmailAndPassword b e p
        = Except.error SignInError.userNotFound) ∧
    (∀ (b : AuthBackendTestingState) (e p : String) (u : RegisteredUser),
      isValidEmail e = true → findByEmail b.registeredUsers e = some u → u.password ≠ p →
      AuthBackendTesting.signInWithEmailAndPassword b e p
        = Except.error SignInError.wrongPassword) :=
  ⟨AuthTesting.signIn_invalid, AuthTesting.signIn_notFound,
   AuthTesting.signIn_wrongPassword, AuthBackendTesting.backendSignIn_invalid,
   AuthBackendTesting.backendSignIn_notFound, AuthBackendTesting.backendSignIn_wrongPassword⟩

/-- Witness for C8: each of the six branches observed at a concrete input. -/
theorem credential_checks_ordered_witness :
    AuthTesting.signInWithEmailAndPassword sampleFront "bad" "pw" 0
      = (Except.error SignInError.invalidEmail, sampleFront) ∧
    AuthTesting.signInWithEmailAndPassword sampleFront "b@x.com" "pw" 0
      = (Except.error SignInError.userNotFound, sampleFront) ∧
    AuthTesting.signInWithEmailAndPassword sampleFront "a@x.com" "nope" 0
      = (Except.error SignInError.wrongPassword, sampleFront) ∧
    AuthBackendTesting.signInWithEmailAndPassword sampleBack "bad" "pw"
      = Except.error SignInError.invalidEmail ∧
    AuthBackendTesting.signInWithEmailAndPassword sampleBack "b@x.com" "pw"
      = Except.error SignInError.userNotFound ∧
    AuthBackendTesting.signInWithEmailAndPassword sampleBack "a@x.com" "nope"
      = Except.error SignInError.wrongPassword :=
  ⟨credential_checks_ordered.1 sampleFront "bad" "pw" 0 (by decide),
   credential_checks_ordered.2.1 sampleFront "b@x.com" "pw" 0 (by decide) (by decide),
   credential_checks_ordered.2.2.1 sampleFront "a@x.com" "nope" 0
     { uid := "u1", email := "a@x.com", password := "pw" } (by decide) (by decide) (by decide),
   credential_checks_ordered.2.2.2.1 sampleBack "bad" "pw" (by decide),
   credential_checks_ordered.2.2.2.2.1 sampleBack "b@x.com" "pw" (by decide) (by decide),
   credential_checks_ordered.2.2.2.2.2 sampleBack "a@x.com" "nope"
     { idToken := "tok1", uid := "u1", email := "a@x.com", password := "pw", refreshToken := "r1" }
     (by decide) (by decide) (by decide)⟩

/-! ## C10 -/

/-- C10: neither sign-up validates the email format.  The session facade's
`signUp` succeeds for every untaken string (creating the account), the
administrative `signUpWithEmailPassword` succeeds unconditionally, and any
sign-in with a syntactically invalid email fails with `invalid-email` on
both facades, so such an account can never authenticate. -/
theorem signUp_no_email_validation :
    (∀ (st : AuthTestingState) (e p fresh : String),
      mapHas st.users e = false →
      AuthTesting.signUp st e p fresh
        = (Except.ok (mkUid fresh),
           { st with users := mapSet st.users e { uid := mkUid fresh, email := e, password := p } })) ∧
    (∀ (b : AuthBackendTestingState) (e p uid tok rtok : String),
      AuthBackendTesting.signUpWithEmailPassword b e p uid tok rtok
        = (uid,
           { b with
             registeredUsers := b.registeredUsers ++ [{ idToken := tok, uid := uid, email := e, password := p, refreshToken := rtok }]
             createdEvents := b.createdEvents ++ [uid] })) ∧
    (∀ (st : AuthTestingState) (e p : String) (now : Nat),
      isValidEmail e = false →
      AuthTesting.signInWithEmailAndPassword st e p now
        = (Except.error SignInError.invalidEmail, st)) ∧
    (∀ (b : AuthBackendTestingState) (e p : String),
      isValidEmail e = false →
      AuthBackendTesting.signInWithEmailAndPassword b e p
        = Except.error SignInError.invalidEmail) := by
  refine ⟨?_, ?_, AuthTesting.signIn_invalid, AuthBackendTesting.backendSignIn_invalid⟩
  · intro st e p fresh h
    simp [AuthTesting.signUp, h]
  · intro b e p uid tok rtok
    rfl

/-- Witness for C10: `bad` is rejected by the regex, yet `signUp` accepts it
on an empty directory, and every sign-in with it then fails `invalid-email`. -/
theorem signUp_no_email_validation_witness :
    isValidEmail "bad" = false ∧
    AuthTesting.signUp AuthTesting.initial "bad" "pw" "u1"
      = (Except.ok "fake-user-u1",
         { AuthTesting.initial with users := mapSet AuthTesting.initial.users "bad" { uid := "fake-user-u1", email := "bad", password := "pw" } }) ∧
    AuthTesting.signInWithEmailAndPassword
        (AuthTesting.signUp AuthTesting.initial "bad" "pw" "u1").2 "bad" "pw" 0
      = (Except.error SignInError.invalidEmail,
         (AuthTesting.signUp AuthTesting.initial "bad" "pw" "u1").2) :=
  ⟨by decide,
   signUp_no_email_validation.1 AuthTesting.initial "bad" "pw" "u1" (by decide),
   signUp_no_email_validation.2.2.1 _ "bad" "pw" 0 (by decide)⟩

/-- A sign-up on an untaken email always succeeds and appends the account
(no email-format check is performed). -/
theorem AuthTesting.signUp_free (st : AuthTestingState) (e p fresh : String)
    (h : mapHas st.users e = false) :
    AuthTesting.signUp st e p fresh
      = (Except.ok (mkUid fresh),
         { st with users := mapSet st.users e { uid := mkUid fresh, email := e, password := p } }) := by
  simp [AuthTesting.signUp, h]

/-- A sign-up on a taken email throws (`Email already in use`) and leaves
the state unchanged. -/
theorem AuthTesting.signUp_taken (st : AuthTestingState) (e p fresh : String)
    (h : mapHas st.users e = true) :
    AuthTesting.signUp st e p fresh = (Except.error (), st) := by
  simp [AuthTesting.signUp, h]

/-! ## C5 -/

/-- Counterexample to C5 as frozen: `signUp` accepts the malformed email
`bad`, creating an account, but the subsequent `signIn` with the very same
credentials does not succeed — it fails with `invalid-email`. -/
theorem signUp_signIn_roundtrip_counterexample :
    (AuthTesting.signUp AuthTesting.initial "bad" "pw" "u1").1 = Except.ok "fake-user-u1" ∧
    (AuthTesting.signInWithEmailAndPassword
        (AuthTesting.signUp AuthTesting.initial "bad" "pw" "u1").2 "bad" "pw" 0).1
      = Except.error SignInError.invalidEmail := by
  decide

/-- C5 (amended): for every account created by `signUp(e, p)` with a
well-formed untaken email, a subsequent `signIn(e, p)` succeeds, sets the
session to the accountId returned by that `signUp`, and publishes the new
`SignedIn` state on the identity stream; and every failing `signIn` returns
the state unchanged (same session state, same stream, same stores). -/
theorem signUp_signIn_roundtrip :
    (∀ (st : AuthTestingState) (e p fresh : String) (now : Nat),
      isValidEmail e = true →
      mapHas st.users e = false →
      (AuthTesting.signUp st e p fresh).1 = Except.ok (mkUid fresh) ∧
      (AuthTesting.signInWithEmailAndPassword (AuthTesting.signUp st e p fresh).2 e p now).1
        = Except.ok () ∧
      (AuthTesting.signInWithEmailAndPassword (AuthTesting.signUp st e p fresh).2 e p now).2.currentUser
        = some (mkUid fresh) ∧
      (AuthTesting.signInWithEmailAndPassword (AuthTesting.signUp st e p fresh).2 e p now).2.authStateLog
        = (AuthTesting.signUp st e p fresh).2.authStateLog
            ++ [AuthStateVal.signedIn (mkUid fresh)]) ∧
    (∀ (st : AuthTestingState) (e p : String) (now : Nat) (err : SignInError),
      (AuthTesting.signInWithEmailAndPassword st e p now).1 = Except.error err →
      (AuthTesting.signInWithEmailAndPassword st e p now).2 = st) := by
  constructor
  · intro st e p fresh now hv hfree
    rw [AuthTesting.signUp_free st e p fresh hfree]
    have hg : mapGet (mapSet st.users e { uid := mkUid fresh, email := e, password := p }) e
        = some { uid := mkUid fresh, email := e, password := p } :=
      mapGet_mapSet_self st.users e _
    rw [AuthTesting.signIn_success _ e p now _ hv hg rfl]
    simp
  · exact AuthTesting.signIn_error_preserves

/-- Witness for C5: the round trip observed from the empty directory, and a
failing sign-in observed to leave the sample state untouched. -/
theorem signUp_signIn_roundtrip_witness :
    ((AuthTesting.signUp AuthTesting.initial "a@x.com" "pw" "u1").1
        = Except.ok (mkUid "u1") ∧
      (AuthTesting.signInWithEmailAndPassword
          (AuthTesting.signUp AuthTesting.initial "a@x.com" "pw" "u1").2 "a@x.com" "pw" 7).1
        = Except.ok () ∧
      (AuthTesting.signInWithEmailAndPassword
          (AuthTesting.signUp AuthTesting.initial "a@x.com" "pw" "u1").2 "a@x.com" "pw" 7).2.currentUser
        = some (mkUid "u1") ∧
      (AuthTesting.signInWithEmailAndPassword
          (AuthTesting.signUp AuthTesting.initial "a@x.com" "pw" "u1").2 "a@x.com" "pw" 7).2.authStateLog
        = (AuthTesting.signUp AuthTesting.initial "a@x.com" "pw" "u1").2.authStateLog
            ++ [AuthStateVal.signedIn (mkUid "u1")]) ∧
    (AuthTesting.signInWithEmailAndPassword sampleFront "b@x.com" "pw" 0).2 = sampleFront :=
  ⟨signUp_signIn_roundtrip.1 AuthTesting.initial "a@x.com" "pw" "u1" 7 (by decide) (by decide),
   signUp_signIn_roundtrip.2 sampleFront "b@x.com" "pw" 0 SignInError.userNotFound (by decide)⟩

/-! ## C6 -/

/-- C6: password-reset triggering for an owned email.  A first allowed
trigger at `t1` succeeds and stamps `t1`; a second trigger strictly within
60000 ms is `RateLimited` and changes nothing; a second trigger at least
60000 ms later succeeds; the minted token expires exactly 3600000 ms after
minting; the rate-limit check runs before the existence check (an unknown
email inside the cooldown still reports `RateLimited`), and the timestamp
is never recorded for an unknown email. -/
theorem triggerReset_cooldown_and_ttl
    (st : AuthTestingState) (e : String) (t1 : Nat) (f1 : String)
    (howned : mapHas st.users e = true)
    (hfree : 60000 ≤ t1 - (mapGet st.rateLimitTracker e).getD 0) :
    (AuthTesting.triggerResetPasswordFlow st e t1 f1).1 = Except.ok () ∧
    (∀ (t2 : Nat) (f2 : String), t2 - t1 < 60000 →
      AuthTesting.triggerResetPasswordFlow
          (AuthTesting.triggerResetPasswordFlow st e t1 f1).2 e t2 f2
        = (Except.error TriggerResetError.rateLimitExceeded,
           (AuthTesting.triggerResetPasswordFlow st e t1 f1).2)) ∧
    (∀ (t2 : Nat) (f2 : String), 60000 ≤ t2 - t1 →
      (AuthTesting.triggerResetPasswordFlow
          (AuthTesting.triggerResetPasswordFlow st e t1 f1).2 e t2 f2).1 = Except.ok ()) ∧
    (mapGet (AuthTesting.triggerResetPasswordFlow st e t1 f1).2.passwordResetTokens
        (mkResetToken f1)
      = some { token := mkResetToken f1, email := e, expiresAt := t1 + 3600000 }) ∧
    (∀ (st' : AuthTestingState) (e' : String) (t : Nat) (f : String),
      t - (mapGet st'.rateLimitTracker e').getD 0 < 60000 →
      AuthTesting.triggerResetPasswordFlow st' e' t f
        = (Except.error TriggerResetError.rateLimitExceeded, st')) ∧
    (∀ (st' : AuthTestingState) (e' : String) (t : Nat) (f : String),
      mapHas st'.users e' = false →
      (AuthTesting.triggerResetPasswordFlow st' e' t f).2.rateLimitTracker
        = st'.rateLimitTracker) := by
  have hstep : AuthTesting.triggerResetPasswordFlow st e t1 f1
      = (Except.ok (),
         { st with passwordResetTokens := mapSet st.passwordResetTokens (mkResetToken f1) { token := mkResetToken f1, email := e, expiresAt := t1 + 3600000 }, rateLimitTracker := mapSet st.rateLimitTracker e t1 }) := by
    unfold AuthTesting.triggerResetPasswordFlow
    rw [if_neg (by omega), if_neg (by simp [howned])]
  refine ⟨by rw [hstep], ?_, ?_, ?_, ?_, ?_⟩
  · intro t2 f2 h2
    rw [hstep]
    unfold AuthTesting.triggerResetPasswordFlow
    rw [if_pos ?_]
    simp only [mapGet_mapSet_self, Option.getD_some]
    omega
  · intro t2 f2 h2
    rw [hstep]
    unfold AuthTesting.triggerResetPasswordFlow
    rw [if_neg ?_, if_neg (by simp [howned])]
    simp only [mapGet_mapSet_self, Option.getD_some]
    omega
  · rw [hstep]
    exact mapGet_mapSet_self _ _ _
  · intro st' e' t f h
    unfold AuthTesting.triggerResetPasswordFlow
    rw [if_pos h]
  · intro st' e' t f h
    by_cases hc : t - (mapGet st'.rateLimitTracker e').getD 0 < 60000
    · unfold AuthTesting.triggerResetPasswordFlow
      rw [if_pos hc]
    · unfold AuthTesting.triggerResetPasswordFlow
      rw [if_neg hc, if_pos (by simp [h])]

/-- Witness for C6: concrete trigger at `t = 100000` on the sample state,
re-trigger at `100001` (rate-limited) and at `160000` (allowed), the token
expiry stamp, rate-limiting before the existence check, and no stamp for an
unknown email. -/
theorem triggerReset_cooldown_and_ttl_witness :
    (AuthTesting.triggerResetPasswordFlow sampleFront "a@x.com" 100000 "x").1 = Except.ok () ∧
    AuthTesting.triggerResetPasswordFlow
        (AuthTesting.triggerResetPasswordFlow sampleFront "a@x.com" 100000 "x").2
        "a@x.com" 100001 "y"
      = (Except.error TriggerResetError.rateLimitExceeded,
         (AuthTesting.triggerResetPasswordFlow sampleFront "a@x.com" 100000 "x").2) ∧
    (AuthTesting.triggerResetPasswordFlow
        (AuthTesting.triggerResetPasswordFlow sampleFront "a@x.com" 100000 "x").2
        "a@x.com" 160000 "y").1 = Except.ok () ∧
    mapGet (AuthTesting.triggerResetPasswordFlow sampleFront "a@x.com" 100000 "x").2.passwordResetTokens
        (mkResetToken "x")
      = some { token := mkResetToken "x", email := "a@x.com", expiresAt := 100000 + 3600000 } ∧
    AuthTesting.triggerResetPasswordFlow sampleFront "zz@q.com" 10 "f"
      = (Except.error TriggerResetError.rateLimitExceeded, sampleFront) ∧
    (AuthTesting.triggerResetPasswordFlow sampleFront "zz" 70000 "f").2.rateLimitTracker
      = sampleFront.rateLimitTracker := by
  have h := triggerReset_cooldown_and_ttl sampleFront "a@x.com" 100000 "x"
    (by decide) (by decide)
  exact ⟨h.1, h.2.1 100001 "y" (by decide), h.2.2.1 160000 "y" (by decide),
    h.2.2.2.1, h.2.2.2.2.1 sampleFront "zz@q.com" 10 "f" (by decide),
    h.2.2.2.2.2 sampleFront "zz" 70000 "f" (by decide)⟩

/-! ## C7 -/

/-- A consume of an unknown token value fails `token-not-found` without any
state change. -/
theorem AuthTesting.requestChangePassword_notFound (st : AuthTestingState)
    (v newP : String) (now : Nat) (h : mapGet st.passwordResetTokens v = none) :
    AuthTesting.requestChangePassword st v newP now
      = (Except.error ChangePasswordError.tokenNotFound, st) := by
  simp [AuthTesting.requestChangePassword, h]

/-- Every consume that finds the token deletes it, in the expired case and
in both success cases alike. -/
theorem AuthTesting.requestChangePassword_deletes (st : AuthTestingState)
    (v newP : String) (now : Nat) (tok : FakePasswordResetToken)
    (h : mapGet st.passwordResetTokens v = some tok) :
    (AuthTesting.requestChangePassword st v newP now).2.passwordResetTokens
      = mapDelete st.passwordResetTokens v := by
  by_cases he : now > tok.expiresAt
  · simp [AuthTesting.requestChangePassword, h, he]
  · cases hu : mapGet st.users tok.email with
    | none => simp [AuthTesting.requestChangePassword, h, he, hu]
    | some u => simp [AuthTesting.requestChangePassword, h, he, hu]

/-- C7: reset tokens are single-use.  Unknown value → `TokenNotFound`
(state unchanged); present but past `expiresAt` → `TokenExpired` and the
token is deleted; present and not expired → success, the new password is
applied to the owning account when it still exists (no-op otherwise) and
the token is deleted; and after any consume that found the token, consuming
the same value again reports `TokenNotFound` (not `TokenExpired`). -/
theorem resetToken_single_use (st : AuthTestingState) (v newP : String) (now : Nat) :
    (mapGet st.passwordResetTokens v = none →
      AuthTesting.requestChangePassword st v newP now
        = (Except.error ChangePasswordError.tokenNotFound, st)) ∧
    (∀ tok : FakePasswordResetToken,
      mapGet st.passwordResetTokens v = some tok → tok.expiresAt < now →
      AuthTesting.requestChangePassword st v newP now
        = (Except.error ChangePasswordError.tokenExpired,
           { st with passwordResetTokens := mapDelete st.passwordResetTokens v })) ∧
    (∀ (tok : FakePasswordResetToken) (u : FakeUser),
      mapGet st.passwordResetTokens v = some tok → now ≤ tok.expiresAt →
      mapGet st.users tok.email = some u →
      AuthTesting.requestChangePassword st v newP now
        = (Except.ok (),
           { st with users := mapSet st.users tok.email { u with password := newP }, passwordResetTokens := mapDelete st.passwordResetTokens v })) ∧
    (∀ tok : FakePasswordResetToken,
      mapGet st.passwordResetTokens v = some tok → now ≤ tok.expiresAt →
      mapGet st.users tok.email = none →
      AuthTesting.requestChangePassword st v newP now
        = (Except.ok (),
           { st with passwordResetTokens := mapDelete st.passwordResetTokens v })) ∧
    (∀ (tok : FakePasswordResetToken) (p2 : String) (t2 : Nat),
      mapGet st.passwordResetTokens v = some tok →
      AuthTesting.requestChangePassword
          (AuthTesting.requestChangePassword st v newP now).2 v p2 t2
        = (Except.error ChangePasswordError.tokenNotFound,
           (AuthTesting.requestChangePassword st v newP now).2)) := by
  refine ⟨AuthTesting.requestChangePassword_notFound st v newP now, ?_, ?_, ?_, ?_⟩
  · intro tok h he
    simp [AuthTesting.requestChangePassword, h, he]
  · intro tok u h he hu
    have he' : ¬now > tok.expiresAt := by omega
    simp [AuthTesting.requestChangePassword, h, he', hu]
  · intro tok h he hu
    have he' : ¬now > tok.expiresAt := by omega
    simp [AuthTesting.requestChangePassword, h, he', hu]
  · intro tok p2 t2 h
    apply AuthTesting.requestChangePassword_notFound
    rw [AuthTesting.requestChangePassword_deletes st v newP now tok h]
    exact mapGet_mapDelete_self _ _

/-- A frontend state with one account and two live reset tokens, both
expiring at time 1000: `tk` for the existing account `a@x.com`, `tk2` for
`gone@x.com`, whose account no longer exists. -/
def sampleReset : AuthTestingState :=
  { users := [("a@x.com", { uid := "u1", email := "a@x.com", password := "pw" })]
    currentUser := none
    authStateLog := [AuthStateVal.undef, AuthStateVal.undef]
    passwordResetTokens := [("tk", { token := "tk", email := "a@x.com", expiresAt := 1000 }), ("tk2", { token := "tk2", email := "gone@x.com", expiresAt := 1000 })]
    rateLimitTracker := []
    idTokens := [] }

/-- Witness for C7: on the sample state — unknown value, expired consume,
successful consume (account present and vanished), and the reuse after an
expired consume all behave as proved. -/
theorem resetToken_single_use_witness :
    AuthTesting.requestChangePassword sampleReset "zz" "np" 0
      = (Except.error ChangePasswordError.tokenNotFound, sampleReset) ∧
    AuthTesting.requestChangePassword sampleReset "tk" "np" 2000
      = (Except.error ChangePasswordError.tokenExpired,
         { sampleReset with passwordResetTokens := mapDelete sampleReset.passwordResetTokens "tk" }) ∧
    AuthTesting.requestChangePassword sampleReset "tk" "np" 900
      = (Except.ok (),
         { sampleReset with users := mapSet sampleReset.users "a@x.com" { uid := "u1", email := "a@x.com", password := "np" }, passwordResetTokens := mapDelete sampleReset.passwordResetTokens "tk" }) ∧
    AuthTesting.requestChangePassword sampleReset "tk2" "np" 900
      = (Except.ok (),
         { sampleReset with passwordResetTokens := mapDelete sampleReset.passwordResetTokens "tk2" }) ∧
    AuthTesting.requestChangePassword
        (AuthTesting.requestChangePassword sampleReset "tk" "np" 2000).2 "tk" "p2" 3000
      = (Except.error ChangePasswordError.tokenNotFound,
         (AuthTesting.requestChangePassword sampleReset "tk" "np" 2000).2) := by
  have h2000 := resetToken_single_use sampleReset "tk" "np" 2000
  have h900 := resetToken_single_use sampleReset "tk" "np" 900
  have h900b := resetToken_single_use sampleReset "tk2" "np" 900
  have h0 := resetToken_single_use sampleReset "zz" "np" 0
  exact ⟨h0.1 (by decide),
    h2000.2.1 { token := "tk", email := "a@x.com", expiresAt := 1000 } (by decide) (by decide),
    h900.2.2.1 { token := "tk", email := "a@x.com", expiresAt := 1000 }
      { uid := "u1", email := "a@x.com", password := "pw" } (by decide) (by decide) (by decide),
    h900b.2.2.2.1 { token := "tk2", email := "gone@x.com", expiresAt := 1000 }
      (by decide) (by decide) (by decide),
    h2000.2.2.2.2 { token := "tk", email := "a@x.com", expiresAt := 1000 } "p2" 3000 (by decide)⟩

/-! ## C4 -/

/-- A frontend state with the account `a@x.com` / `pw` (uid `u1`) currently
signed in, holding its id token. -/
def sampleSignedIn : AuthTestingState :=
  { users := [("a@x.com", { uid := "u1", email := "a@x.com", password := "pw" })]
    currentUser := some "u1"
    authStateLog := [AuthStateVal.undef, AuthStateVal.undef, AuthStateVal.signedIn "u1"]
    passwordResetTokens := []
    rateLimitTracker := []
    idTokens := [("u1", "tok")] }

/-- C4: deleting a signed-in account removes it — the subsequent sign-in
with the same credentials fails `user-not-found` — and the administrative
deletion publishes exactly one `onUserDeleted` event carrying the deleted
account's id (the session facade owns no lifecycle channel; `onUserDeleted`
on the backend facade is the `AccountDeleted` event). -/
theorem deleteAccount_removes_and_single_delete_event
    (st : AuthTestingState) (uid e p : String) (u : FakeUser) (now : Nat)
    (h1 : st.currentUser = some uid)
    (h2 : findEntryByUid st.users uid = some (e, u))
    (h3 : isValidEmail e = true)
    (b : AuthBackendTestingState) (buid bp : String) (bu : RegisteredUser)
    (hb1 : findByUid b.registeredUsers buid = some bu)
    (hb3 : ∀ v ∈ b.registeredUsers, v.email = bu.email → v.uid = buid)
    (hb4 : (b.registeredUsers.filter (fun v => v.uid = buid)).length ≤ 1)
    (hb5 : isValidEmail bu.email = true) :
    (AuthTesting.deleteAccount st
      = some { st with users := mapDelete st.users e, idTokens := mapDelete st.idTokens uid, currentUser := none, authStateLog := st.authStateLog ++ [AuthStateVal.signedOut] }) ∧
    (AuthTesting.signInWithEmailAndPassword
        { st with users := mapDelete st.users e, idTokens := mapDelete st.idTokens uid, currentUser := none, authStateLog := st.authStateLog ++ [AuthStateVal.signedOut] }
        e p now
      = (Except.error SignInError.userNotFound,
         { st with users := mapDelete st.users e, idTokens := mapDelete st.idTokens uid, currentUser := none, authStateLog := st.authStateLog ++ [AuthStateVal.signedOut] })) ∧
    (AuthBackendTesting.deleteUser b buid).1 = Except.ok () ∧
    (AuthBackendTesting.deleteUser b buid).2.deletedEvents = b.deletedEvents ++ [buid] ∧
    AuthBackendTesting.signInWithEmailAndPassword
        (AuthBackendTesting.deleteUser b buid).2 bu.email bp
      = Except.error SignInError.userNotFound := by
  refine ⟨?_, ?_, ?_, ?_, ?_⟩
  · simp [AuthTesting.deleteAccount, h1, h2]
  · exact AuthTesting.signIn_notFound _ e p now h3 (mapGet_mapDelete_self st.users e)
  · simp [AuthBackendTesting.deleteUser, hb1]
  · simp [AuthBackendTesting.deleteUser, hb1]
  · apply AuthBackendTesting.backendSignIn_notFound _ _ bp hb5
    have hr : (AuthBackendTesting.deleteUser b buid).2.registeredUsers
        = removeByUid b.registeredUsers buid := by
      simp [AuthBackendTesting.deleteUser, hb1]
    rw [hr]
    exact findByEmail_removeByUid_none b.registeredUsers buid bu.email hb3 hb4

/-- Witness for C4: the signed-in sample account is deleted, sign-in then
misses, and the backend deletion of `u1` emits exactly the event `u1`. -/
theorem deleteAccount_removes_and_single_delete_event_witness :
    (AuthTesting.deleteAccount sampleSignedIn
      = some { sampleSignedIn with users := mapDelete sampleSignedIn.users "a@x.com", idTokens := mapDelete sampleSignedIn.idTokens "u1", currentUser := none, authStateLog := sampleSignedIn.authStateLog ++ [AuthStateVal.signedOut] }) ∧
    (AuthTesting.signInWithEmailAndPassword
        { sampleSignedIn with users := mapDelete sampleSignedIn.users "a@x.com", idTokens := mapDelete sampleSignedIn.idTokens "u1", currentUser := none, authStateLog := sampleSignedIn.authStateLog ++ [AuthStateVal.signedOut] }
        "a@x.com" "pw" 9
      = (Except.error SignInError.userNotFound,
         { sampleSignedIn with users := mapDelete sampleSignedIn.users "a@x.com", idTokens := mapDelete sampleSignedIn.idTokens "u1", currentUser := none, authStateLog := sampleSignedIn.authStateLog ++ [AuthStateVal.signedOut] })) ∧
    (AuthBackendTesting.deleteUser sampleBack "u1").1 = Except.ok () ∧
    (AuthBackendTesting.deleteUser sampleBack "u1").2.deletedEvents
      = sampleBack.deletedEvents ++ ["u1"] ∧
    AuthBackendTesting.signInWithEmailAndPassword
        (AuthBackendTesting.deleteUser sampleBack "u1").2 "a@x.com" "pw"
      = Except.error SignInError.userNotFound := by
  have h := deleteAccount_removes_and_single_delete_event sampleSignedIn "u1" "a@x.com" "pw"
    { uid := "u1", email := "a@x.com", password := "pw" } 9
    (by decide) (by decide) (by decide)
    sampleBack "u1" "pw"
    { idToken := "tok1", uid := "u1", email := "a@x.com", password := "pw", refreshToken := "r1" }
    (by decide) (by decide) (by decide) (by decide)
  exact h

/-! ## C1 -/

/-- Counterexample to C1 as frozen: with both facades freshly constructed,
the session facade's `signUp("a@x.com")` succeeds with id `fake-user-u1`,
yet the administrative facade's `getUidByEmail("a@x.com")` reports
`email-not-found` rather than that id; the administrative `deleteUser` of
that id fails, and `isEmailAvailable("a@x.com")` stays `false` after it. -/
theorem facades_share_no_state_counterexample :
    (World.signUp World.initial "a@x.com" "pw" "u1").1 = Except.ok "fake-user-u1" ∧
    World.getUidByEmail (World.signUp World.initial "a@x.com" "pw" "u1").2 "a@x.com"
      = Except.error () ∧
    (World.deleteUser (World.signUp World.initial "a@x.com" "pw" "u1").2 "fake-user-u1").1
      = Except.error () ∧
    World.isEmailAvailable
        (World.deleteUser (World.signUp World.initial "a@x.com" "pw" "u1").2 "fake-user-u1").2
        "a@x.com" = false := by
  decide

/-- C1 (amended): the two facades keep independent identity stores.  A
session-facade sign-up never changes what the administrative facade's
`getUidByEmail` reports, an administrative deletion never changes what the
session facade's `isEmailAvailable` reports, and each facade is consistent
with its own store (a successful session sign-up makes its own
`isEmailAvailable` false). -/
theorem facades_operate_on_independent_state :
    (∀ (w : World) (e p fresh q : String),
      World.getUidByEmail (World.signUp w e p fresh).2 q = World.getUidByEmail w q) ∧
    (∀ (w : World) (i q : String),
      World.isEmailAvailable (World.deleteUser w i).2 q = World.isEmailAvailable w q) ∧
    (∀ (w : World) (e p fresh : String),
      (World.signUp w e p fresh).1 = Except.error () ∨
      World.isEmailAvailable (World.signUp w e p fresh).2 e = false) := by
  refine ⟨fun w e p fresh q => rfl, fun w i q => rfl, ?_⟩
  intro w e p fresh
  by_cases h : mapHas w.front.users e = true
  · left
    show (AuthTesting.signUp w.front e p fresh).1 = Except.error ()
    rw [AuthTesting.signUp_taken w.front e p fresh h]
  · right
    rw [Bool.not_eq_true] at h
    show AuthTesting.isEmailAvailable (AuthTesting.signUp w.front e p fresh).2 e = false
    rw [AuthTesting.signUp_free w.front e p fresh h]
    simp [AuthTesting.isEmailAvailable, mapHas_mapSet_self]

/-! ## C2 -/

/-- Counterexample to C2 as frozen: two administrative sign-ups with the
same email both succeed, leaving two distinct live accounts that share the
email `a@x.com`. -/
theorem email_uniqueness_counterexample :
    (AuthBackendTesting.signUpWithEmailPassword
        (AuthBackendTesting.signUpWithEmailPassword AuthBackendTesting.initial
          "a@x.com" "p1" "uid1" "t1" "r1").2
        "a@x.com" "p2" "uid2" "t2" "r2").1 = "uid2" ∧
    (AuthBackendTesting.signUpWithEmailPassword
        (AuthBackendTesting.signUpWithEmailPassword AuthBackendTesting.initial
          "a@x.com" "p1" "uid1" "t1" "r1").2
        "a@x.com" "p2" "uid2" "t2" "r2").2.registeredUsers.map (fun u => (u.uid, u.email))
      = [("uid1", "a@x.com"), ("uid2", "a@x.com")] := by
  decide

/-- C2 (amended): only the session facade enforces one account per email —
its `signUp` throws `Email already in use` on a taken email and leaves the
state unchanged; the administrative `signUpWithEmailPassword` performs no
uniqueness check at all and appends a new account unconditionally, so a
sign-up with an already-taken email creates a second account there. -/
theorem email_uniqueness_per_facade :
    (∀ (st : AuthTestingState) (e p fresh : String),
      mapHas st.users e = true →
      AuthTesting.signUp st e p fresh = (Except.error (), st)) ∧
    (∀ (b : AuthBackendTestingState) (e p uid tok rtok : String),
      (AuthBackendTesting.signUpWithEmailPassword b e p uid tok rtok).2.registeredUsers
        = b.registeredUsers ++ [{ idToken := tok, uid := uid, email := e, password := p, refreshToken := rtok }]) :=
  ⟨AuthTesting.signUp_taken, fun _ _ _ _ _ _ => rfl⟩

/-- Witness for C2 (amended): the sample state rejects a second `a@x.com`
sign-up on the session facade, while the backend appends one. -/
theorem email_uniqueness_per_facade_witness :
    AuthTesting.signUp sampleFront "a@x.com" "q" "z" = (Except.error (), sampleFront) ∧
    (AuthBackendTesting.signUpWithEmailPassword sampleBack "a@x.com" "q" "uid2" "t2" "r2").2.registeredUsers
      = sampleBack.registeredUsers ++ [{ idToken := "t2", uid := "uid2", email := "a@x.com", password := "q", refreshToken := "r2" }] :=
  ⟨email_uniqueness_per_facade.1 sampleFront "a@x.com" "q" "z" (by decide),
   email_uniqueness_per_facade.2 sampleBack "a@x.com" "q" "uid2" "t2" "r2"⟩

/-! ## C3 -/

/-- Counterexample to C3 as frozen: the administrative facade's sign-in
returns exactly the id token the account already held from sign-up
(`tok1`), not a value newly minted by the call. -/
theorem fresh_token_counterexample :
    (findByEmail (AuthBackendTesting.signUpWithEmailPassword AuthBackendTesting.initial
        "a@x.com" "pw" "uid1" "tok1" "r1").2.registeredUsers "a@x.com").map (fun u => u.idToken)
      = some "tok1" ∧
    AuthBackendTesting.signInWithEmailAndPassword
        (AuthBackendTesting.signUpWithEmailPassword AuthBackendTesting.initial
          "a@x.com" "pw" "uid1" "tok1" "r1").2 "a@x.com" "pw"
      = Except.ok { uid := "uid1", refreshToken := "r1", idToken := "tok1" } := by
  decide

/-- C3 (amended): the session facade's sign-in stores
`fake-id-token-\x7buid\x7d-\x7bnow\x7d` as the account's id token on every success
(a fresh value whenever the timestamp differs from all earlier mints); the
administrative facade's `signInWithEmailAndPassword` mints nothing and
returns the stored `idToken` and `refreshToken` unchanged; an
administrative id token is re-minted only by `signInWithRefreshToken`,
which stores and returns its fresh uuid argument. -/
theorem signIn_token_minting :
    (∀ (st : AuthTestingState) (e p : String) (now : Nat) (u : FakeUser),
      isValidEmail e = true → mapGet st.users e = some u → u.password = p →
      mapGet (AuthTesting.signInWithEmailAndPassword st e p now).2.idTokens u.uid
        = some (mkIdToken u.uid now)) ∧
    (∀ (b : AuthBackendTestingState) (e p : String) (u : RegisteredUser),
      isValidEmail e = true → findByEmail b.registeredUsers e = some u → u.password = p →
      AuthBackendTesting.signInWithEmailAndPassword b e p
        = Except.ok { uid := u.uid, refreshToken := u.refreshToken, idToken := u.idToken }) ∧
    (∀ (b : AuthBackendTestingState) (rt nt : String) (u : RegisteredUser),
      findByRefreshToken b.registeredUsers rt = some u →
      (AuthBackendTesting.signInWithRefreshToken b rt nt).1 = Except.ok (nt, u.uid)) := by
  refine ⟨?_, AuthBackendTesting.backendSignIn_success, ?_⟩
  · intro st e p now u hv hg hp
    rw [AuthTesting.signIn_success st e p now u hv hg hp]
    exact mapGet_mapSet_self st.idTokens u.uid (mkIdToken u.uid now)
  · intro b rt nt u h
    simp [AuthBackendTesting.signInWithRefreshToken, h]

/-- Witness for C3 (amended): on the sample states, the session sign-in at
`now = 5` stores `fake-id-token-u1-5`, the administrative sign-in returns
the stored `tok1`/`r1`, and a refresh exchange returns its fresh value. -/
theorem signIn_token_minting_witness :
    mapGet (AuthTesting.signInWithEmailAndPassword sampleFront "a@x.com" "pw" 5).2.idTokens "u1"
      = some (mkIdToken "u1" 5) ∧
    AuthBackendTesting.signInWithEmailAndPassword sampleBack "a@x.com" "pw"
      = Except.ok { uid := "u1", refreshToken := "r1", idToken := "tok1" } ∧
    (AuthBackendTesting.signInWithRefreshToken sampleBack "r1" "fresh9").1
      = Except.ok ("fresh9", "u1") :=
  ⟨signIn_token_minting.1 sampleFront "a@x.com" "pw" 5
      { uid := "u1", email := "a@x.com", password := "pw" } (by decide) (by decide) (by decide),
   signIn_token_minting.2.1 sampleBack "a@x.com" "pw"
      { idToken := "tok1", uid := "u1", email := "a@x.com", password := "pw", refreshToken := "r1" }
      (by decide) (by decide) (by decide),
   signIn_token_minting.2.2 sampleBack "r1" "fresh9"
      { idToken := "tok1", uid := "u1", email := "a@x.com", password := "pw", refreshToken := "r1" }
      (by decide)⟩

/-! ## C9 -/

/-- One invocation of a public `AuthTesting` method, with all its inputs. -/
inductive FrontOp where
  | signIn (email password : String) (now : Nat)
  | readIdToken
  | readPasswordResetTokens
  | signOut
  | isEmailAvailable (email : String)
  | changeEmail (email : String)
  | triggerReset (email : String) (now : Nat) (fresh : String)
  | requestChangePassword (tok newPassword : String) (now : Nat)
  | deleteAccount
  | signUp (email password fresh : String)
  | addTestUser (email password uid : String)
deriving DecidableEq, Repr

/-- The state reached after one public method call (read-only methods and
the throwing branch of `deleteAccount` leave the state as is). -/
def FrontOp.step (st : AuthTestingState) : FrontOp → AuthTestingState
  | FrontOp.signIn e p now => (AuthTesting.signInWithEmailAndPassword st e p now).2
  | FrontOp.readIdToken => st
  | FrontOp.readPasswordResetTokens => st
  | FrontOp.signOut => AuthTesting.signOut st
  | FrontOp.isEmailAvailable _ => st
  | FrontOp.changeEmail e => (AuthTesting.changeEmail st e).2
  | FrontOp.triggerReset e now f => (AuthTesting.triggerResetPasswordFlow st e now f).2
  | FrontOp.requestChangePassword t p now => (AuthTesting.requestChangePassword st t p now).2
  | FrontOp.deleteAccount => (AuthTesting.deleteAccount st).getD st
  | FrontOp.signUp e p f => (AuthTesting.signUp st e p f).2
  | FrontOp.addTestUser e p u => (AuthTesting.addTestUser st e p u).2

/-- The C9 invariant: whenever somebody is signed in, the id-token store
holds a token under their uid. -/
def TokenInv (st : AuthTestingState) : Bool :=
  st.currentUser.all (fun uid => mapHas st.idTokens uid)

/-- `changeEmail` never touches `currentUser` or `idTokens`. -/
theorem AuthTesting.changeEmail_session (st : AuthTestingState) (e : String) :
    (AuthTesting.changeEmail st e).2.currentUser = st.currentUser ∧
    (AuthTesting.changeEmail st e).2.idTokens = st.idTokens := by
  cases hc : st.currentUser with
  | none => simp [AuthTesting.changeEmail, hc]
  | some uid =>
    by_cases ha : AuthTesting.isEmailAvailable st e = true
    · cases hf : findEntryByUid st.users uid with
      | none => simp [AuthTesting.changeEmail, hc, ha, hf]
      | some pr =>
        obtain ⟨oe, uu⟩ := pr
        simp [AuthTesting.changeEmail, hc, ha, hf]
    · rw [Bool.not_eq_true] at ha
      simp [AuthTesting.changeEmail, hc, ha]

/-- `triggerResetPasswordFlow` never touches `currentUser` or `idTokens`. -/
theorem AuthTesting.trigger_session (st : AuthTestingState) (e : String)
    (now : Nat) (f : String) :
    (AuthTesting.triggerResetPasswordFlow st e now f).2.currentUser = st.currentUser ∧
    (AuthTesting.triggerResetPasswordFlow st e now f).2.idTokens = st.idTokens := by
  by_cases h1 : now - (mapGet st.rateLimitTracker e).getD 0 < 60000
  · simp [AuthTesting.triggerResetPasswordFlow, h1]
  · by_cases h2 : mapHas st.users e = true
    · simp [AuthTesting.triggerResetPasswordFlow, h1, h2]
    · rw [Bool.not_eq_true] at h2
      simp [AuthTesting.triggerResetPasswordFlow, h1, h2]

/-- `requestChangePassword` never touches `currentUser` or `idTokens`. -/
theorem AuthTesting.requestChangePassword_session (st : AuthTestingState)
    (v p : String) (now : Nat) :
    (AuthTesting.requestChangePassword st v p now).2.currentUser = st.currentUser ∧
    (AuthTesting.requestChangePassword st v p now).2.idTokens = st.idTokens := by
  cases hg : mapGet st.passwordResetTokens v with
  | none => simp [AuthTesting.requestChangePassword, hg]
  | some tok =>
    by_cases he : now > tok.expiresAt
    · simp [AuthTesting.requestChangePassword, hg, he]
    · cases hu : mapGet st.users tok.email with
      | none => simp [AuthTesting.requestChangePassword, hg, he, hu]
      | some u => simp [AuthTesting.requestChangePassword, hg, he, hu]

/-- C9: from construction on, every public `AuthTesting` method preserves
the invariant `signed-in ⇒ an id token is stored for the session uid`, so
`getIdToken` can only throw `No user signed in` — its `No token available`
branch is unreachable through the public interface. -/
theorem session_token_invariant :
    TokenInv AuthTesting.initial = true ∧
    (∀ (st : AuthTestingState) (op : FrontOp),
      TokenInv st = true → TokenInv (FrontOp.step st op) = true) ∧
    (∀ st : AuthTestingState, TokenInv st = true →
      AuthTesting.getIdToken st ≠ Except.error GetIdTokenError.noTokenAvailable) := by
  refine ⟨by decide, ?_, ?_⟩
  · intro st op h
    cases op with
    | signIn e p now =>
      by_cases hv : isValidEmail e = true
      · cases hg : mapGet st.users e with
        | none =>
          simpa [FrontOp.step, AuthTesting.signIn_notFound st e p now hv hg] using h
        | some u =>
          by_cases hp : u.password = p
          · simp [FrontOp.step, AuthTesting.signIn_success st e p now u hv hg hp,
              TokenInv, mapHas_mapSet_self]
          · simpa [FrontOp.step,
              AuthTesting.signIn_wrongPassword st e p now u hv hg hp] using h
      · rw [Bool.not_eq_true] at hv
        simpa [FrontOp.step, AuthTesting.signIn_invalid st e p now hv] using h
    | readIdToken => simpa [FrontOp.step] using h
    | readPasswordResetTokens => simpa [FrontOp.step] using h
    | signOut => simp [FrontOp.step, AuthTesting.signOut, TokenInv]
    | isEmailAvailable e => simpa [FrontOp.step] using h
    | changeEmail e =>
      have hs := AuthTesting.changeEmail_session st e
      simp only [FrontOp.step, TokenInv, hs.1, hs.2]
      simpa [TokenInv] using h
    | triggerReset e now f =>
      have hs := AuthTesting.trigger_session st e now f
      simp only [FrontOp.step, TokenInv, hs.1, hs.2]
      simpa [TokenInv] using h
    | requestChangePassword t p now =>
      have hs := AuthTesting.requestChangePassword_session st t p now
      simp only [FrontOp.step, TokenInv, hs.1, hs.2]
      simpa [TokenInv] using h
    | deleteAccount =>
      cases hc : st.currentUser with
      | none => simpa [FrontOp.step, AuthTesting.deleteAccount, hc] using h
      | some uid => simp [FrontOp.step, AuthTesting.deleteAccount, hc, TokenInv]
    | signUp e p f =>
      by_cases ht : mapHas st.users e = true
      · simpa [FrontOp.step, AuthTesting.signUp_taken st e p f ht] using h
      · rw [Bool.not_eq_true] at ht
        simpa [FrontOp.step, AuthTesting.signUp_free st e p f ht, TokenInv] using h
    | addTestUser e p u =>
      simpa [FrontOp.step, AuthTesting.addTestUser, TokenInv] using h
  · intro st h
    cases hc : st.currentUser with
    | none => simp [AuthTesting.getIdToken, hc]
    | some uid =>
      have hm : mapHas st.idTokens uid = true := by
        simpa [TokenInv, hc] using h
      cases hg : mapGet st.idTokens uid with
      | none => simp [mapHas, hg] at hm
      | some t => simp [AuthTesting.getIdToken, hc, hg]

/-- Witness for C9: the invariant holds at the signed-in sample state, is
preserved by a sign-out step there, and `getIdToken` does not hit the
`No token available` branch on it. -/
theorem session_token_invariant_witness :
    TokenInv (FrontOp.step sampleSignedIn FrontOp.signOut) = true ∧
    AuthTesting.getIdToken sampleSignedIn
      ≠ Except.error GetIdTokenError.noTokenAvailable :=
  ⟨session_token_invariant.2.1 sampleSignedIn FrontOp.signOut (by decide),
   session_token_invariant.2.2 sampleSignedIn (by decide)⟩
